import Mathlib

/-!
Verification of the TicketScout booking monitor.

This file gives a shallow embedding of the two core modules of the
repository — the availability checker (`src/scraper.py`, class
`BookMyShowScraper`) and the monitor loop (`src/monitor.py`, class
`BookingMonitor`) — and proves properties of the embedded code.

Modelling conventions:
* Python dictionaries used as records (`result = {...}`) become Lean
  structures; the monitor's open-ended error dictionary, which has no
  `title` key, is modelled with `title : Option String`.
* `self.previous_states` (a Python dict) is modelled as a function
  `String → Option CheckResult`; `dict.get(url, {})` becomes application,
  `dict[url] = r` becomes a pointwise update.
* Network I/O and HTML parsing are at the boundary of the embedded code:
  a check receives a `FetchOutcome` describing what the fetch/parse of a
  URL produced (a transport error, a non-requests exception, or a parsed
  page with its text, clickable-element texts, and CSS-selector results).
* Wall-clock time in the rate limiter is an explicit rational parameter:
  `now` is the value of `time.time()` on entry and `slack ≥ 0` is the
  extra wall-clock time elapsing beyond the requested sleep.
-/

namespace TicketScout

/-! ## Substring containment

Python's `needle in haystack` on strings is contiguous-substring
containment (an empty needle always matches). -/

/-- `subOccurs needle hay` is true when `needle` occurs contiguously in `hay`. -/
def subOccurs (needle : List Char) : List Char → Bool
  | [] => needle.isEmpty
  | c :: cs => needle.isPrefixOf (c :: cs) || subOccurs needle cs

/-- Python `needle in hay` for strings. -/
def strContains (hay needle : String) : Bool :=
  subOccurs needle.toList hay.toList

/-- Python `str.lower()`, applied character by character.  Every
indicator phrase in the source is ASCII, where this agrees with
Python's Unicode lowercasing. -/
def lowerStr (s : String) : String :=
  ⟨s.data.map Char.toLower⟩

/-! ## Checker (src/scraper.py) -/

/-- The result dictionary built by `check_ticket_availability`
(scraper.py lines 73-79) and by the monitor's per-URL `except` branch
(monitor.py lines 145-150).  The scraper dictionary always carries a
`title` key; the monitor's error dictionary has none, hence
`title : Option String`. -/
structure CheckResult where
  url : String
  title : Option String
  available : Bool
  status : String
  error : Option String
deriving Repr, DecidableEq

/-- A fetched and parsed page, as the checker observes it:
`selectOne sel` is the stripped text of the first element matching CSS
selector `sel` (`soup.select_one`), `text` is `soup.get_text()`, and
`buttonTexts` lists `get_text(strip=True)` of every `button`/`a` element
in document order (`soup.find_all(['button', 'a'])`). -/
structure Page where
  selectOne : String → Option String
  text : String
  buttonTexts : List String

/-- What the fetch-and-parse of one URL produced, seen from inside
`check_ticket_availability`'s `try` block:
* `transportError msg`: a `requests.exceptions.RequestException` — a
  transport failure, timeout, or the `HTTPError` that `raise_for_status`
  raises on a non-2xx response (scraper.py lines 162-166);
* `scrapeError msg`: any other exception, e.g. a parse failure after a
  successful fetch (scraper.py lines 168-172), modelled as occurring
  before title extraction so the result keeps the default title;
* `ok p`: the page was fetched and parsed successfully. -/
inductive FetchOutcome where
  | transportError (msg : String)
  | scrapeError (msg : String)
  | ok (p : Page)

/-- scraper.py lines 98-104. -/
def title_selectors : List String :=
  ["h1[data-testid=\"movie-title\"]", "h1.movie-title", ".movie-name h1", "h1", ".title"]

/-- scraper.py lines 113-120. -/
def booking_indicators : List String :=
  ["Book tickets", "Book now", "Buy tickets", "Purchase tickets", "Select seats",
   "Choose seats"]

/-- scraper.py lines 144-150. -/
def unavailable_indicators : List String :=
  ["sold out", "not available", "coming soon", "advance booking not started",
   "no shows available"]

/-- Title extraction loop, scraper.py lines 106-110: the first selector
that matches an element wins; otherwise the default stands. -/
def extractTitle (p : Page) : String :=
  match title_selectors.findSome? p.selectOne with
  | some t => t
  | none => "Unknown Movie"

/-- `BookMyShowScraper.check_ticket_availability`, scraper.py lines 59-174,
as a function of the fetch outcome.  The source catches every exception,
so the embedding is a total function: no branch raises. -/
def check_ticket_availability (url : String) (outcome : FetchOutcome) : CheckResult :=
  match outcome with
  | .transportError msg =>
      { url := url, title := some "Unknown Movie", available := false,
        status := "Request failed", error := some ("Request error: " ++ msg) }
  | .scrapeError msg =>
      { url := url, title := some "Unknown Movie", available := false,
        status := "Scraping failed", error := some ("Scraping error: " ++ msg) }
  | .ok p =>
      let title := extractTitle p
      let page_text := lowerStr p.text
      match booking_indicators.find? (fun ind => strContains page_text (lowerStr ind)) with
      | some ind =>
          { url := url, title := some title, available := true,
            status := "Tickets available - found \x27" ++ ind ++ "\x27", error := none }
      | none =>
        match p.buttonTexts.find? (fun bt =>
            (bt != "") && booking_indicators.any (fun ind => strContains (lowerStr bt) (lowerStr ind))) with
        | some bt =>
            { url := url, title := some title, available := true,
              status := "Booking button found: " ++ bt, error := none }
        | none =>
          match unavailable_indicators.find? (fun ind => strContains page_text (lowerStr ind)) with
          | some ind =>
              { url := url, title := some title, available := false,
                status := "Not available - " ++ ind, error := none }
          | none =>
              { url := url, title := some title, available := false,
                status := "No clear booking indicators found", error := none }

/-! ## Rate limiter (src/scraper.py lines 40-57) -/

/-- The rate-limiter state of one `BookMyShowScraper` instance: the
timestamp of the last outbound fetch, shared across all URLs checked by
the instance, plus `min_request_interval` (2 at construction). -/
structure ScraperState where
  last_request_time : ℚ
  min_request_interval : ℚ

/-- `BookMyShowScraper._rate_limit`.  `now` is `time.time()` at entry;
`slack ≥ 0` is the wall-clock time elapsing beyond the requested sleep
(the sleep may overshoot, and the second `time.time()` call happens after
it).  Returns the new `last_request_time` — the instant at which the
outbound fetch is issued — and the updated state. -/
def rate_limit (st : ScraperState) (now slack : ℚ) : ℚ ×  ScraperState :=
  (now + (if now - st.last_request_time < st.min_request_interval
          then st.min_request_interval - (now - st.last_request_time) else 0) + slack,
   { st with last_request_time :=
       now + (if now - st.last_request_time < st.min_request_interval
              then st.min_request_interval - (now - st.last_request_time) else 0) + slack })

/-! ## Monitor (src/monitor.py) -/

/-- The mutable fields of `BookingMonitor` that the embedded operations
touch.  `previous_states` models the Python dict of last results. -/
structure MonitorState where
  monitored_urls : List String
  previous_states : String → Option CheckResult
  checks_performed : Nat
  notifications_sent : Nat

/-- What happens when the per-URL body of `check_all_urls` runs for one
URL: either the checker is invoked and observes a `FetchOutcome`, or an
exception escapes the per-URL `try` (monitor.py lines 126-142) and lands
in the `except` branch (lines 143-150).  The checker itself catches all
exceptions, so `exc` models failures outside it, e.g. in task creation. -/
inductive CheckEvent where
  | ok (outcome : FetchOutcome)
  | exc (msg : String)

/-- The error dictionary built in the per-URL `except` branch,
monitor.py lines 145-150.  It carries no `title` key. -/
def check_failed_result (url msg : String) : CheckResult :=
  { url := url, title := none, available := false, status := "Check failed",
    error := some msg }

/-- `self.previous_states[url] = result` (monitor.py line 141). -/
def setState (m : String → Option CheckResult) (url : String) (r : CheckResult) :
    String → Option CheckResult :=
  fun v => if v = url then some r else m v

/-- `self.previous_states.get(url, {}).get('available', False)`
(monitor.py lines 132-134): an absent previous state reads as
`available = false`. -/
def prevAvailable (m : String → Option CheckResult) (url : String) : Bool :=
  match m url with
  | some r => r.available
  | none => false

/-- Accumulator of one pass of the `for url in self.monitored_urls`
loop: the `results` list returned by `check_all_urls`, the arguments of
the `send_availability_notification` tasks created so far (in creation
order), and the `previous_states` dict. -/
structure CycleAcc where
  results : List CheckResult
  notifs : List CheckResult
  states : String → Option CheckResult

/-- One iteration of the loop body of `check_all_urls`
(monitor.py lines 125-150) for the URL `ue.1` under event `ue.2`. -/
def stepUrl (acc : CycleAcc) (ue : String × CheckEvent) : CycleAcc :=
  match ue.2 with
  | .exc msg =>
      { acc with results := acc.results ++ [check_failed_result ue.1 msg] }
  | .ok outcome =>
      let result := check_ticket_availability ue.1 outcome
      let current_available := result.available
      let previous_available := prevAvailable acc.states ue.1
      { results := acc.results ++ [result],
        notifs := if current_available && !previous_available
                  then acc.notifs ++ [result] else acc.notifs,
        states := setState acc.states ue.1 result }

/-- `BookingMonitor.check_all_urls` (monitor.py lines 116-153).  The
URLs are paired with the events describing what their checks encounter
this cycle; the function returns the cycle's accumulator (results,
scheduled notifications, new dict) and the monitor state after the
cycle (`checks_performed` incremented, line 152). -/
def check_all_urls (s : MonitorState) (evs : List CheckEvent) : CycleAcc × MonitorState :=
  let acc := (s.monitored_urls.zip evs).foldl stepUrl ⟨[], [], s.previous_states⟩
  (acc, { s with previous_states := acc.states,
                 checks_performed := s.checks_performed + 1 })

/-- `BookingMonitor.add_url` (monitor.py lines 52-72): returns the new
state and the boolean the method returns (`true` = added, `false` = the
URL was already monitored). -/
def add_url (s : MonitorState) (url : String) : MonitorState × Bool :=
  if url ∈ s.monitored_urls then (s, false)
  else ({ s with monitored_urls := s.monitored_urls ++ [url] }, true)

/-- The fields `send_availability_notification` reads from the result it
was scheduled with (monitor.py lines 162-164): title (default
"Unknown Movie"), status, and url, which make up the message text. -/
def notification_fields (r : CheckResult) : String × String × String :=
  (r.title.getD "Unknown Movie", r.status, r.url)

/-- Several consecutive monitoring cycles: run `check_all_urls` once per
event list entry and concatenate the notifications scheduled across the
cycles, in order. -/
def runCyclesNotifs (s : MonitorState) : List CheckEvent → List CheckResult
  | [] => []
  | ev :: evs =>
      (check_all_urls s [ev]).1.notifs ++ runCyclesNotifs (check_all_urls s [ev]).2 evs

/-- Modelled from the spec: the notification discipline of §4.2.3/§8 in
the spec's own words, for comparison with the code.  Given the previous
availability (unobserved reads as `false`), a notification carrying the
current result fires exactly when availability transitions from `false`
to `true` between consecutive checks, and each check's result becomes
the previous state of the next. -/
def spec_notifications (previous_available : Bool) : List CheckResult → List CheckResult
  | [] => []
  | r :: rs =>
      (if r.available = true ∧ previous_available = false then [r] else [])
        ++ spec_notifications r.available rs

/-! ## Helper lemmas -/

theorem prevAvailable_setState_self (m : String → Option CheckResult) (u : String)
    (r : CheckResult) : prevAvailable (setState m u r) u = r.available := by
  simp [prevAvailable, setState]

theorem setState_apply_self (m : String → Option CheckResult) (u : String)
    (r : CheckResult) : setState m u r u = some r := by
  simp [setState]

theorem check_all_urls_ok_eq (u : String) (prev : String → Option CheckResult)
    (c n : Nat) (o : FetchOutcome) :
    check_all_urls ⟨[u], prev, c, n⟩ [CheckEvent.ok o] =
      ({ results := [check_ticket_availability u o],
         notifs := if (check_ticket_availability u o).available && !(prevAvailable prev u)
                   then [check_ticket_availability u o] else [],
         states := setState prev u (check_ticket_availability u o) },
       { monitored_urls := [u],
         previous_states := setState prev u (check_ticket_availability u o),
         checks_performed := c + 1,
         notifications_sent := n }) := by
  simp only [check_all_urls, stepUrl, List.zip, List.zipWith, List.foldl]
  split <;> rfl

theorem check_all_urls_exc_eq (u : String) (prev : String → Option CheckResult)
    (c n : Nat) (msg : String) :
    check_all_urls ⟨[u], prev, c, n⟩ [CheckEvent.exc msg] =
      ({ results := [check_failed_result u msg], notifs := [], states := prev },
       { monitored_urls := [u], previous_states := prev,
         checks_performed := c + 1, notifications_sent := n }) := rfl

/-! ## Claim theorems -/

/-- C4: for every URL, `check_ticket_availability` never raises past its
boundary (the embedding is a total function: every `FetchOutcome`
constructor yields a returned result), and a transport failure or
non-2xx response yields `available = false`, `status = "Request failed"`,
`error` set to the cause, and the default title `"Unknown Movie"`. -/
theorem transport_failure_yields_request_failed (u msg : String) :
    check_ticket_availability u (FetchOutcome.transportError msg) =
      { url := u, title := some "Unknown Movie", available := false,
        status := "Request failed", error := some ("Request error: " ++ msg) } := rfl

/-- C10: a non-transport exception inside the checker (e.g. a parse
failure after a successful fetch) is caught and returned as a result
with `available = false`, `error` populated, and status exactly
`"Scraping failed"` — a third terminal failure status, distinct from
both `"Request failed"` and `"No clear booking indicators found"`. -/
theorem non_transport_exception_scraping_failed (u msg : String) :
    check_ticket_availability u (FetchOutcome.scrapeError msg) =
      { url := u, title := some "Unknown Movie", available := false,
        status := "Scraping failed", error := some ("Scraping error: " ++ msg) } ∧
    ("Scraping failed" : String) ≠ "Request failed" ∧
    ("Scraping failed" : String) ≠ "No clear booking indicators found" :=
  ⟨rfl, by decide, by decide⟩

/-- C5: when a positive indicator matches the page text — in particular
on a page whose text contains both a positive and a negative indicator —
classification returns `available = true` with the status naming the
first matched positive indicator; the scan short-circuits, so the
negative indicators (whose presence the hypothesis `hneg` allows) are
never consulted. -/
theorem positive_indicator_beats_negative (u : String) (p : Page) (ind : String)
    (hpos : booking_indicators.find?
      (fun i => strContains (lowerStr p.text) (lowerStr i)) = some ind)
    (_hneg : ∃ j ∈ unavailable_indicators, strContains (lowerStr p.text) (lowerStr j) = true) :
    (check_ticket_availability u (FetchOutcome.ok p)).available = true ∧
    (check_ticket_availability u (FetchOutcome.ok p)).status =
      "Tickets available - found \x27" ++ ind ++ "\x27" := by
  refine ⟨?_, ?_⟩ <;> simp [check_ticket_availability, hpos]

/-- Witness for C5 on a page whose text contains both the positive
indicator "Book tickets" and the negative indicator "sold out". -/
theorem positive_indicator_beats_negative_witness :
    booking_indicators.find? (fun i =>
      strContains (lowerStr "Book tickets now - balcony sold out") (lowerStr i)) =
        some "Book tickets" ∧
    (∃ j ∈ unavailable_indicators,
      strContains (lowerStr "Book tickets now - balcony sold out") (lowerStr j) = true) ∧
    ((check_ticket_availability "https://x.test/m"
        (FetchOutcome.ok ⟨fun _ => none, "Book tickets now - balcony sold out", []⟩)).available
          = true ∧
     (check_ticket_availability "https://x.test/m"
        (FetchOutcome.ok ⟨fun _ => none, "Book tickets now - balcony sold out", []⟩)).status =
          "Tickets available - found \x27Book tickets\x27") :=
  ⟨by decide, by decide,
   positive_indicator_beats_negative "https://x.test/m"
     ⟨fun _ => none, "Book tickets now - balcony sold out", []⟩ "Book tickets"
     (by decide) (by decide)⟩

/-- C7: when no positive indicator matches the page text, no clickable
element matches, and no negative indicator matches, the check returns
`available = false` with status exactly
`"No clear booking indicators found"`, a string distinct from every
status a matched negative indicator can produce. -/
theorem no_indicator_unknown_classification (u : String) (p : Page)
    (h1 : booking_indicators.find?
      (fun i => strContains (lowerStr p.text) (lowerStr i)) = none)
    (h2 : p.buttonTexts.find? (fun bt =>
      (bt != "") && booking_indicators.any
        (fun i => strContains (lowerStr bt) (lowerStr i))) = none)
    (h3 : unavailable_indicators.find?
      (fun i => strContains (lowerStr p.text) (lowerStr i)) = none) :
    (check_ticket_availability u (FetchOutcome.ok p)).available = false ∧
    (check_ticket_availability u (FetchOutcome.ok p)).status =
      "No clear booking indicators found" ∧
    ∀ j ∈ unavailable_indicators,
      ("No clear booking indicators found" : String) ≠ "Not available - " ++ j := by
  refine ⟨?_, ?_, by decide⟩ <;> simp [check_ticket_availability, h1, h2, h3]

/-- Witness for C7 on a page with neither indicator family present. -/
theorem no_indicator_unknown_classification_witness :
    booking_indicators.find? (fun i =>
      strContains (lowerStr "lorem ipsum dolor") (lowerStr i)) = none ∧
    ([ "Interested" ] : List String).find? (fun bt =>
      (bt != "") && booking_indicators.any
        (fun i => strContains (lowerStr bt) (lowerStr i))) = none ∧
    unavailable_indicators.find? (fun i =>
      strContains (lowerStr "lorem ipsum dolor") (lowerStr i)) = none ∧
    ((check_ticket_availability "https://y.test/m"
        (FetchOutcome.ok ⟨fun _ => none, "lorem ipsum dolor", ["Interested"]⟩)).available
          = false ∧
     (check_ticket_availability "https://y.test/m"
        (FetchOutcome.ok ⟨fun _ => none, "lorem ipsum dolor", ["Interested"]⟩)).status =
          "No clear booking indicators found" ∧
     ∀ j ∈ unavailable_indicators,
       ("No clear booking indicators found" : String) ≠ "Not available - " ++ j) :=
  ⟨by decide, by decide, by decide,
   no_indicator_unknown_classification "https://y.test/m"
     ⟨fun _ => none, "lorem ipsum dolor", ["Interested"]⟩
     (by decide) (by decide) (by decide)⟩

/-- C1 counterexample: a URL with no stored previous state whose very
first check returns `available = true` DOES schedule a notification —
the claim's baseline rule fails on the code, which reads the absent
previous state as `available = false` and so treats the first sight of
an available page as a `false → true` transition. -/
theorem first_check_available_fires_counterexample :
    (check_all_urls ⟨["https://z.test/m"], fun _ => none, 0, 0⟩
        [CheckEvent.ok (FetchOutcome.ok ⟨fun _ => none, "book tickets", []⟩)]).1.notifs =
      [check_ticket_availability "https://z.test/m"
        (FetchOutcome.ok ⟨fun _ => none, "book tickets", []⟩)] := by
  decide

/-- C1 amended: for a URL that was never checked before (no stored
previous state), the first check schedules exactly one notification when
its result has `available = true` and none otherwise: the absent
previous state is read as `available = false`, so an already-available
URL fires on first sight. -/
theorem first_check_available_fires (u : String) (c n : Nat) (o : FetchOutcome) :
    (check_all_urls ⟨[u], fun _ => none, c, n⟩ [CheckEvent.ok o]).1.notifs =
      if (check_ticket_availability u o).available = true
      then [check_ticket_availability u o] else [] := by
  rw [check_all_urls_ok_eq]
  cases h : (check_ticket_availability u o).available <;> simp [prevAvailable, h]

/-- C2: over any sequence of completed checks of a single tracked URL,
the notifications scheduled by the monitor (each carrying the current
result record, whose title/status/url make up the message —
`notification_fields`) are exactly those prescribed by the spec's
transition rule: one per `false → true` availability transition, with an
absent previous state read as `false`, and none on `true → true`,
`true → false`, or `false → false`. -/
theorem notification_iff_false_to_true_transition (u : String)
    (prev : String → Option CheckResult) (c n : Nat) (os : List FetchOutcome) :
    runCyclesNotifs ⟨[u], prev, c, n⟩ (os.map CheckEvent.ok) =
      spec_notifications (prevAvailable prev u) (os.map (check_ticket_availability u)) := by
  induction os generalizing prev c n with
  | nil => rfl
  | cons o os ih =>
    simp only [List.map_cons, runCyclesNotifs, spec_notifications, check_all_urls_ok_eq]
    rw [ih, prevAvailable_setState_self]
    cases hr : (check_ticket_availability u o).available <;>
      cases hpa : prevAvailable prev u <;> simp [hr, hpa]

/-- C3 counterexample: when an exception escapes the per-URL check, the
stored state is NOT replaced by the result of that most recent check —
the `except` branch appends a `"Check failed"` result to the cycle's
results but leaves `previous_states` untouched, so the stored entry
still holds the older result, which differs from the most recent one. -/
theorem stored_state_after_exception_counterexample :
    (check_all_urls ⟨["https://w.test/m"],
        setState (fun _ => none) "https://w.test/m"
          (check_ticket_availability "https://w.test/m" (FetchOutcome.transportError "down")),
        0, 0⟩ [CheckEvent.exc "boom"]).1.results =
      [check_failed_result "https://w.test/m" "boom"] ∧
    (check_all_urls ⟨["https://w.test/m"],
        setState (fun _ => none) "https://w.test/m"
          (check_ticket_availability "https://w.test/m" (FetchOutcome.transportError "down")),
        0, 0⟩ [CheckEvent.exc "boom"]).2.previous_states "https://w.test/m" =
      some (check_ticket_availability "https://w.test/m" (FetchOutcome.transportError "down")) ∧
    check_ticket_availability "https://w.test/m" (FetchOutcome.transportError "down") ≠
      check_failed_result "https://w.test/m" "boom" :=
  ⟨rfl, by decide, by decide⟩

/-- C3 amended: after a check whose per-URL body completes — a
successful check or one whose failure the Checker itself captured — the
stored state for the URL is replaced by that check's result; but after a
check aborted by an exception escaping the per-URL body, the stored
state is left unchanged (the `"Check failed"` result only joins the
cycle's results list). -/
theorem stored_state_update_behavior (u : String) (prev : String → Option CheckResult)
    (c n : Nat) (o : FetchOutcome) (msg : String) :
    (check_all_urls ⟨[u], prev, c, n⟩ [CheckEvent.ok o]).2.previous_states u =
      some (check_ticket_availability u o) ∧
    (check_all_urls ⟨[u], prev, c, n⟩ [CheckEvent.exc msg]).2.previous_states = prev := by
  refine ⟨?_, rfl⟩
  rw [check_all_urls_ok_eq]
  exact setState_apply_self prev u (check_ticket_availability u o)

/-- C6: an exception escaping the per-URL check of one URL is caught
per-URL and converted into an error result with `available = false`,
`status = "Check failed"` and `error` set to the exception message, and
the cycle still checks the remaining URLs (the embedding of the cycle is
a total function, so the loop around it cannot terminate through it). -/
theorem per_url_exception_isolated (u1 u2 msg : String) (o : FetchOutcome)
    (prev : String → Option CheckResult) (c n : Nat) :
    (check_all_urls ⟨[u1, u2], prev, c, n⟩ [CheckEvent.exc msg, CheckEvent.ok o]).1.results =
      [{ url := u1, title := none, available := false,
         status := "Check failed", error := some msg },
       check_ticket_availability u2 o] ∧
    (check_all_urls ⟨[u1, u2], prev, c, n⟩
        [CheckEvent.exc msg, CheckEvent.ok o]).2.previous_states u2 =
      some (check_ticket_availability u2 o) := by
  constructor
  · rfl
  · exact setState_apply_self prev u2 (check_ticket_availability u2 o)

/-- C8: `add_url` is idempotent — for a URL not yet tracked, the first
call reports success (`true`), the second call reports a no-op
(`false`), and afterwards the tracked list holds exactly one entry for
the URL. -/
theorem add_url_idempotent (s : MonitorState) (u : String) (h : u ∉ s.monitored_urls) :
    (add_url s u).2 = true ∧
    (add_url (add_url s u).1 u).2 = false ∧
    (add_url (add_url s u).1 u).1.monitored_urls.count u = 1 := by
  have h1 : add_url s u = ({ s with monitored_urls := s.monitored_urls ++ [u] }, true) := by
    simp [add_url, h]
  have h2 : add_url { s with monitored_urls := s.monitored_urls ++ [u] } u =
      ({ s with monitored_urls := s.monitored_urls ++ [u] }, false) := by
    simp [add_url]
  rw [h1, h2]
  refine ⟨rfl, rfl, ?_⟩
  simp [List.count_append, List.count_eq_zero.mpr h]

/-- Witness for C8 starting from a monitor tracking no URLs. -/
theorem add_url_idempotent_witness :
    ("https://v.test/m" ∉ ([] : List String)) ∧
    ((add_url ⟨[], fun _ => none, 0, 0⟩ "https://v.test/m").2 = true ∧
     (add_url (add_url ⟨[], fun _ => none, 0, 0⟩ "https://v.test/m").1 "https://v.test/m").2
       = false ∧
     (add_url (add_url ⟨[], fun _ => none, 0, 0⟩ "https://v.test/m").1
       "https://v.test/m").1.monitored_urls.count "https://v.test/m" = 1) :=
  ⟨by simp, add_url_idempotent ⟨[], fun _ => none, 0, 0⟩ "https://v.test/m" (by simp)⟩

/-- C9: two checks issued back-to-back through the same Checker instance
are separated by at least `min_request_interval = 2` seconds between
their outbound fetch issuance times: whatever the wall clock reads when
the second `_rate_limit` call starts, it sleeps until at least 2 seconds
past the first fetch's recorded time.  The throttle is a single
`last_request_time` shared across all URLs of the instance — the URLs
being checked do not enter `rate_limit` at all. -/
theorem rate_limit_min_interval (st : ScraperState) (now1 s1 now2 s2 : ℚ)
    (hmin : st.min_request_interval = 2) (hs2 : 0 ≤ s2) :
    (rate_limit st now1 s1).1 + 2 ≤ (rate_limit (rate_limit st now1 s1).2 now2 s2).1 := by
  simp only [rate_limit, hmin]
  split_ifs <;> linarith

/-- Witness for C9: a first fetch at time 5 and a second `_rate_limit`
call entered at time 6 issue the second fetch at time 7 = 5 + 2. -/
theorem rate_limit_min_interval_witness :
    (⟨0, 2⟩ : ScraperState).min_request_interval = 2 ∧ (0 : ℚ) ≤ 0 ∧
    (rate_limit ⟨0, 2⟩ 5 0).1 + 2 ≤ (rate_limit (rate_limit ⟨0, 2⟩ 5 0).2 6 0).1 :=
  ⟨rfl, le_refl 0, rate_limit_min_interval ⟨0, 2⟩ 5 0 6 0 rfl (le_refl 0)⟩

end TicketScout
